import Mathlib

/-!
Verification of wrapspawner/wrapspawner.py.

Shallow embedding of the WrapSpawner / ProfilesSpawner / DropDownOptionsSpawner
classes. Python dictionaries become association lists over an inductive value
type `Val`; Python `Type` objects (Spawner classes) become `Nat` identifiers;
the behaviour of the dynamically chosen child backend (its `clear_state`,
`load_state`, `get_state`, `stop`, `poll`) is a parameter `B : Nat → BackendBehavior`
mapping each class identifier to its behaviour, since the backends themselves
live outside this repository. Tornado futures become a record of a completion
flag and a result. Fallible Python code (subscripting, which can raise
IndexError / TypeError) returns `Except String`.
-/

set_option autoImplicit false

namespace Wrapspawner

/-- A Python value as it occurs in the spawner state and form data:
strings, integers, lists, and string-keyed dictionaries (as ordered
association lists, matching Python dict insertion order). -/
inductive Val where
  | str : String → Val
  | int : Int → Val
  | list : List Val → Val
  | dict : List (String × Val) → Val

/-- A Python dictionary with string keys: ordered association list. -/
abbrev Dict := List (String × Val)

/-- `d[k] = v` for a Python dict: replace in place if the key exists
(keeping its position), else append — Python dict insertion-order semantics. -/
def setKey (d : Dict) (k : String) (v : Val) : Dict :=
  if d.any (fun kv => kv.1 == k) then
    d.map (fun kv => if kv.1 == k then (k, v) else kv)
  else
    d ++ [(k, v)]

/-- Dictionary lookup (first matching key). -/
def getKey (d : Dict) (k : String) : Option Val :=
  (d.find? (fun kv => kv.1 == k)).map (fun kv => kv.2)

/-- Python `d.get(k, default)`. -/
def pyGet (d : Dict) (k : String) (dflt : Val) : Val :=
  match getKey d k with
  | some v => v
  | none => dflt

/-- Python `base.update(upd)`: fold the entries of `upd` into `base`. -/
def dictUpdate (base upd : Dict) : Dict :=
  upd.foldl (fun b kv => setKey b kv.1 kv.2) base

/-- Coerce a value expected to be a dict to its entries (the code only ever
stores dicts under the keys this is applied to). -/
def asDict : Val → Dict
  | .dict d => d
  | _ => []

/-- Python subscripting `v[i]`, which raises IndexError on an out-of-range
list or string index and TypeError on an integer. -/
def pySubscript : Val → Nat → Except String Val
  | .list l, i =>
      match l.get? i with
      | some v => Except.ok v
      | none => Except.error "IndexError"
  | .str s, i =>
      match s.toList.get? i with
      | some c => Except.ok (Val.str (String.mk [c]))
      | none => Except.error "IndexError"
  | .int _, _ => Except.error "TypeError: int object is not subscriptable"
  | .dict _, _ => Except.error "KeyError"

/-- Model of a tornado future as observed by the claims: whether it is already
completed and, if so, the result it holds (`none` models Python `None`). -/
structure Future where
  completed : Bool
  result : Option Val

/-- `_yield_val(x=None)`: a dummy, already-completed future holding `x`. -/
def yieldVal (x : Option Val) : Future := ⟨true, x⟩

/-- Behaviour of one backend Spawner class (external to this repository):
its internal persisted-relevant state is modelled by the `Dict` it would
persist; construction yields `initState`, and `clear_state` / `load_state` /
`get_state` / `stop` / `poll` act on that state. -/
structure BackendBehavior where
  initState : Dict
  clearSt : Dict → Dict
  loadSt : Dict → Dict → Dict
  getSt : Dict → Dict
  stopB : Bool → Dict → Future
  pollB : Dict → Future

/-- The constructed child Spawner instance: the class it was instantiated
from, the keyword configuration it was constructed with
(`**self.child_config`), and its current internal state. -/
structure ChildInst where
  cls : Nat
  cfg : Dict
  st : Dict

/-- The identifier of `LocalProcessSpawner`, the default `child_class`. -/
def LocalProcessSpawnerCls : Nat := 0

/-- Resolution of the bare name `SlurmSpawner` in the module globals:
wrapspawner.py never imports or defines `SlurmSpawner` (its only other
occurrence is inside a comment), so looking the name up at call time in
`DropDownOptionsSpawner.construct_child` raises NameError. -/
def slurmSpawnerLookup : Except String Nat :=
  Except.error "NameError: name SlurmSpawner is not defined"

/-- State of a `WrapSpawner`: the selected child class and configuration,
the cached child state, the child instance if constructed, and the
`user_options` dict inherited from the base Spawner. -/
structure WrapState where
  child_class : Nat
  child_config : Dict
  child_state : Dict
  child_spawner : Option ChildInst
  user_options : Dict

/-- `WrapSpawner.construct_child`: if no child exists, instantiate
`child_class` with `child_config`, clear the state of the fresh child
unconditionally, and load `child_state` into it when that dict is non-empty.
(The `directional_link` of common traits affects only trait values outside
`child_config`, which the claims never observe, so it has no footprint in
this state model.) Idempotent once a child exists. -/
def constructChildCore (B : Nat → BackendBehavior) (s : WrapState) : WrapState :=
  match s.child_spawner with
  | some _ => s
  | none =>
      let st0 := (B s.child_class).initState
      let st1 := (B s.child_class).clearSt st0
      let st2 := if s.child_state.isEmpty then st1 else (B s.child_class).loadSt st1 s.child_state
      { s with child_spawner := some ⟨s.child_class, s.child_config, st2⟩ }

/-- Model of `WrapSpawner.get_state`: start from the base Spawner state (modelled
as the empty dict, the base class being outside this repository), add
`child_conf`, and if a child exists refresh and add `child_state`. Returns
the state dict together with the updated wrapper (the `child_state` cache
is refreshed in place). -/
def getStateCore (B : Nat → BackendBehavior) (s : WrapState) : Dict × WrapState :=
  let st : Dict := setKey [] "child_conf" (Val.dict s.child_config)
  match s.child_spawner with
  | some inst =>
      let cs := (B inst.cls).getSt inst.st
      (setKey st "child_state" (Val.dict cs), { s with child_state := cs })
  | none => (st, s)

/-- `WrapSpawner.clear_state`: clear base state (not modelled), tell the
child (whose reference is then dropped) to clear its own state, and reset
`child_state`, `child_config` and `child_spawner`. Note the code leaves
`child_class` untouched. -/
def clearStateCore (s : WrapState) : WrapState :=
  { s with child_state := [], child_config := [], child_spawner := none }

/-- `WrapSpawner.stop(now)`: delegate to the child if present, else return a
dummy completed future holding `None`. -/
def stopCore (B : Nat → BackendBehavior) (s : WrapState) (now : Bool) : Future :=
  match s.child_spawner with
  | some inst => (B inst.cls).stopB now inst.st
  | none => yieldVal none

/-- `WrapSpawner.poll()`: delegate to the child if present, else return a
dummy completed future holding the sentinel `1`. -/
def pollCore (B : Nat → BackendBehavior) (s : WrapState) : Future :=
  match s.child_spawner with
  | some inst => (B inst.cls).pollB inst.st
  | none => yieldVal (some (Val.int 1))

/-- One entry of the `profiles` trait:
`(display name, unique key, Spawner class, config dict)`. -/
structure Profile where
  display : String
  key : String
  cls : Nat
  config : Dict

/-- The one-pass duplicate scan of `ProfilesSpawner._validate_profiles`:
`duplicated = {p[1] for p in profiles if p[1] in seen or seen.add(p[1])}`.
A key already in `seen` joins the `duplicated` set (as a set, kept
deduplicated in first-seen order); otherwise it joins `seen`. -/
def dupScan : List Profile → List String → List String → List String
  | [], _, dup => dup
  | p :: rest, seen, dup =>
      if seen.contains p.key then
        dupScan rest seen (if dup.contains p.key then dup else dup ++ [p.key])
      else
        dupScan rest (seen ++ [p.key]) dup

/-- `ProfilesSpawner._validate_profiles`: raise a `TraitError` naming the
duplicated keys when any key repeats, else return the proposal unchanged.
The Python f-string renders the `duplicated` set; the model renders its
elements comma-separated between braces. -/
def validateProfiles (profiles : List Profile) : Except String (List Profile) :=
  let dup := dupScan profiles [] []
  if dup.isEmpty then
    Except.ok profiles
  else
    Except.error ("Invalid wrapspawner profiles, profiles keys are not unique : \x7b"
      ++ String.intercalate ", " dup ++ "\x7d")

/-- State of a `ProfilesSpawner`: the wrapped core plus the configured
`profiles` list and the `child_profile` selection key. -/
structure PState extends WrapState where
  profiles : List Profile
  child_profile : String

/-- `ProfilesSpawner.select_profile`: linear scan for the first profile
whose key matches; on a match set `child_class`/`child_config` from it,
otherwise leave the previous selection in place. -/
def selectProfile (s : PState) (profile : String) : PState :=
  match s.profiles.find? (fun p => p.key == profile) with
  | some p => { s with child_class := p.cls, child_config := p.config }
  | none => s

/-- Reading of the profile key from user_options with default "" (`options_from_form` stores the
selection as a plain string, so a non-string value never occurs there). -/
def uoProfile (s : PState) : String :=
  match getKey s.user_options "profile" with
  | some (Val.str p) => p
  | _ => ""

/-- `ProfilesSpawner.construct_child`: read the profile key from
`user_options` (defaulting to `""`), store it in `child_profile`, apply
`select_profile`, then run the core `construct_child`. -/
def profilesConstructChild (B : Nat → BackendBehavior) (s : PState) : PState :=
  let s1 := selectProfile { s with child_profile := uoProfile s } (uoProfile s)
  { s1 with toWrapState := constructChildCore B s1.toWrapState }

/-- `ProfilesSpawner.load_child_class`: take `child_profile` from the
persisted state under the key `profile` (the `KeyError` branch yields `""`), then
`select_profile` with it. -/
def profilesLoadChildClass (s : PState) (state : Dict) : PState :=
  let prof :=
    match getKey state "profile" with
    | some (Val.str p) => p
    | _ => ""
  selectProfile { s with child_profile := prof } prof

/-- `WrapSpawner.load_state` as it runs on a `ProfilesSpawner` (the
`load_child_class` and `construct_child` hooks dispatch to the overrides):
base `load_state` (outside this repository, no modelled fields), the
selection-reconstruction hook, the update of `child_config` from the persisted
`child_conf` entry,
the refresh of `child_state` from the persisted `child_state` entry, then
`construct_child`. -/
def profilesLoadState (B : Nat → BackendBehavior) (s : PState) (state : Dict) : PState :=
  let s1 := profilesLoadChildClass s state
  let s2 := { s1 with
    child_config := dictUpdate s1.child_config (asDict (pyGet state "child_conf" (Val.dict []))) }
  let s3 := { s2 with child_state := asDict (pyGet state "child_state" (Val.dict [])) }
  profilesConstructChild B s3

/-- `ProfilesSpawner.get_state`: the core `get_state` plus
storing `child_profile` under the key `profile`. -/
def profilesGetState (B : Nat → BackendBehavior) (s : PState) : Dict × PState :=
  let (st, w) := getStateCore B s.toWrapState
  (setKey st "profile" (Val.str s.child_profile), { s with toWrapState := w })

/-- `ProfilesSpawner.clear_state`: the core `clear_state` plus resetting
`child_profile` to `""`. -/
def profilesClearState (s : PState) : PState :=
  { s with toWrapState := clearStateCore s.toWrapState, child_profile := "" }

/-- `ProfilesSpawner.options_from_form`: returns
a one-entry dict built from the submitted profile key, defaulting to the
key of the first profile. The
default expression `[self.profiles[0][1]]` is evaluated eagerly (Python
evaluates arguments before the call), so an empty profiles list would
raise IndexError even when the key is present. -/
def profilesOptionsFromForm (s : PState) (formdata : Dict) : Except String Dict := do
  let firstKey ←
    match s.profiles with
    | [] => Except.error "IndexError"
    | p :: _ => Except.ok p.key
  let v ← pySubscript (pyGet formdata "profile" (Val.list [Val.str firstKey])) 0
  return [("profile", v)]

/-- The round-trip sequence of claim C2: capture `get_state()`, then
`clear_state()`, then `load_state(captured)`. -/
def roundTripSeq (B : Nat → BackendBehavior) (s : PState) : Dict × PState :=
  let (d, s1) := profilesGetState B s
  (d, profilesLoadState B (profilesClearState s1) d)

/-- State of a `DropDownOptionsSpawner`: the wrapped core plus the
`partitions` list and the default form values (the `Integer` traits). -/
structure DDState extends WrapState where
  partitions : List String
  default_days : Int
  default_hours : Int
  default_minutes : Int
  default_mem : Int
  default_cpus : Int

/-- `self.user_options.get(k, "")` for `DropDownOptionsSpawner`, whose
`options_from_form` stores every option as a plain string. -/
def uoGetStr (uo : Dict) (k : String) : String :=
  match getKey uo k with
  | some (Val.str v) => v
  | _ => ""

/-- `DropDownOptionsSpawner.options_from_form`: each field is extracted by
`formdata.get(name, default)[0]`, in keyword order `partition, memory,
cpus, days, hours, minutes, options`. The partition default is
`[self.partitions[0][1]]` (the second character of the first partition,
evaluated eagerly); the numeric defaults are the raw `Integer` trait
values; the options default is the empty string. Each default is then subscripted by
`[0]` when its key is missing. -/
def ddOptionsFromForm (s : DDState) (formdata : Dict) : Except String Dict := do
  let firstPartition ←
    match s.partitions with
    | [] => Except.error "IndexError"
    | p :: _ => Except.ok p
  let pdef ← pySubscript (Val.str firstPartition) 1
  let pv ← pySubscript (pyGet formdata "partition" (Val.list [pdef])) 0
  let mv ← pySubscript (pyGet formdata "memory" (Val.int s.default_mem)) 0
  let cv ← pySubscript (pyGet formdata "cpus" (Val.int s.default_cpus)) 0
  let dv ← pySubscript (pyGet formdata "days" (Val.int s.default_days)) 0
  let hv ← pySubscript (pyGet formdata "hours" (Val.int s.default_hours)) 0
  let minv ← pySubscript (pyGet formdata "minutes" (Val.int s.default_minutes)) 0
  let ov ← pySubscript (pyGet formdata "options" (Val.str "")) 0
  return [("partition", pv), ("memory", mv), ("cpus", cv), ("days", dv),
          ("hours", hv), ("minutes", minv), ("options", ov)]

/-- `DropDownOptionsSpawner.construct_child`: its first statement,
`self.child_class=SlurmSpawner`, resolves the bare name `SlurmSpawner`,
which raises NameError (see `slurmSpawnerLookup`) before any of the five
`req_*` writes runs. Were the name defined, the hook would fix
`child_class` to it, write the five `req_*` keys of `child_config` from
`user_options` (composing `req_runtime` as `days-hours:minutes:00` and
suffixing `GB` to the memory), then run the core `construct_child`. -/
def ddConstructChild (B : Nat → BackendBehavior) (s : DDState) : Except String DDState := do
  let slurm ← slurmSpawnerLookup
  let uo := s.user_options
  let cfg := setKey s.child_config "req_queue" (Val.str (uoGetStr uo "partition"))
  let cfg := setKey cfg "req_memory" (Val.str (uoGetStr uo "memory" ++ "GB"))
  let cfg := setKey cfg "req_nprocs" (Val.str (uoGetStr uo "cpus"))
  let cfg := setKey cfg "req_runtime"
    (Val.str (uoGetStr uo "days" ++ "-" ++ uoGetStr uo "hours" ++ ":"
      ++ uoGetStr uo "minutes" ++ ":00"))
  let cfg := setKey cfg "req_options" (Val.str (uoGetStr uo "options"))
  let s1 := { s with child_class := slurm, child_config := cfg }
  return { s1 with toWrapState := constructChildCore B s1.toWrapState }

/-- Property of a backend class required by the round-trip claim: loading a
persisted state into a freshly constructed and cleared instance reproduces
that persisted state, and a freshly cleared instance persists the empty
state (the latter is what the wrapper relies on when it skips
`load_state` for an empty `child_state`). -/
def StateRoundTrips (b : BackendBehavior) : Prop :=
  (∀ st, b.getSt (b.loadSt (b.clearSt b.initState) (b.getSt st)) = b.getSt st) ∧
  b.getSt (b.clearSt b.initState) = []

/-- A concrete backend whose persisted state is its internal state
verbatim; it satisfies `StateRoundTrips` and is used to instantiate the
parametric theorems on concrete inputs. -/
def idBackend : BackendBehavior :=
  ⟨[], id, fun _ d => d, id, fun _ _ => yieldVal none, fun _ => yieldVal (some (Val.int 0))⟩

/-- The class table assigning `idBackend` to every class identifier. -/
def idClasses : Nat → BackendBehavior := fun _ => idBackend

/-- A fresh `ProfilesSpawner` over a given profile list: default
`child_class`, empty configs and options, no child constructed. -/
def freshPState (profiles : List Profile) : PState :=
  ⟨⟨LocalProcessSpawnerCls, [], [], none, []⟩, profiles, ""⟩

/-- C3: on a wrapper on which no child was ever constructed, `stop(now)`
returns an already-completed future holding the success result `None`, and
`poll()` returns an already-completed future holding the non-null sentinel
`1`. Neither path can raise: both are built by `_yield_val`, which only
creates a future and sets its result. -/
theorem stop_poll_unconstructed (B : Nat → BackendBehavior) (s : WrapState)
    (h : s.child_spawner = none) (now : Bool) :
    stopCore B s now = { completed := true, result := none } ∧
    pollCore B s = { completed := true, result := some (Val.int 1) } := by
  unfold stopCore pollCore
  rw [h]
  exact ⟨rfl, rfl⟩

/-- Witness for C3: the fresh wrapper state. -/
theorem stop_poll_unconstructed_witness :
    stopCore idClasses (freshPState []).toWrapState true
        = { completed := true, result := none } ∧
    pollCore idClasses (freshPState []).toWrapState
        = { completed := true, result := some (Val.int 1) } :=
  stop_poll_unconstructed idClasses (freshPState []).toWrapState rfl true

/-- C4: selecting a key that matches no profile leaves `child_class` and
`child_config` unchanged (the loop of `select_profile` finds no match and
falls through). -/
theorem select_unknown_key_noop (s : PState) (k : String)
    (h : ∀ p ∈ s.profiles, p.key ≠ k) :
    (selectProfile s k).child_class = s.child_class ∧
    (selectProfile s k).child_config = s.child_config := by
  have hf : s.profiles.find? (fun p => p.key == k) = none := by
    rw [List.find?_eq_none]
    intro p hp
    simp [h p hp]
  unfold selectProfile
  rw [hf]
  exact ⟨rfl, rfl⟩

/-- Witness for C4: an unknown key against the default profile list. -/
theorem select_unknown_key_noop_witness :
    (selectProfile (freshPState [⟨"Local Notebook Server", "local", LocalProcessSpawnerCls,
        [("start_timeout", Val.int 15), ("http_timeout", Val.int 10)]⟩]) "unknown").child_class
      = (freshPState [⟨"Local Notebook Server", "local", LocalProcessSpawnerCls,
        [("start_timeout", Val.int 15), ("http_timeout", Val.int 10)]⟩]).child_class ∧
    (selectProfile (freshPState [⟨"Local Notebook Server", "local", LocalProcessSpawnerCls,
        [("start_timeout", Val.int 15), ("http_timeout", Val.int 10)]⟩]) "unknown").child_config
      = (freshPState [⟨"Local Notebook Server", "local", LocalProcessSpawnerCls,
        [("start_timeout", Val.int 15), ("http_timeout", Val.int 10)]⟩]).child_config :=
  select_unknown_key_noop _ "unknown" (by decide)

/-- A `ProfilesSpawner` state with a live child and a non-default
`child_class`, used to exhibit what `clear_state` leaves behind. -/
def clearCexState : PState :=
  ⟨⟨2, [("a", Val.str "b")], [("s", Val.int 3)], some ⟨2, [("a", Val.str "b")], []⟩, []⟩,
    [⟨"A", "a", 2, [("a", Val.str "b")]⟩], "a"⟩

/-- Counterexample to C6 as stated: after `clear_state` the backend type is
not dropped — `child_class` keeps its prior, non-default value (the code
resets `child_state`, `child_config`, `child_spawner` and `child_profile`
but never touches `child_class`). -/
theorem clear_state_keeps_child_class :
    (profilesClearState clearCexState).child_class = clearCexState.child_class ∧
    clearCexState.child_class ≠ LocalProcessSpawnerCls :=
  ⟨rfl, by decide⟩

/-- C6 amended: `clear_state` clears the cached child state, drops the
backend config, the child reference and the selection key, but retains
`child_class` at its prior value. -/
theorem clear_state_resets_except_child_class (s : PState) :
    (profilesClearState s).child_state = [] ∧
    (profilesClearState s).child_config = [] ∧
    (profilesClearState s).child_spawner = none ∧
    (profilesClearState s).child_profile = "" ∧
    (profilesClearState s).child_class = s.child_class ∧
    (profilesClearState s).profiles = s.profiles ∧
    (profilesClearState s).user_options = s.user_options :=
  ⟨rfl, rfl, rfl, rfl, rfl, rfl, rfl⟩

/-- A `ProfilesSpawner` state whose child was constructed from profile A
while `user_options` now names profile B, used to exhibit selection
mutation with a live child. -/
def mutateCexState : PState :=
  ⟨⟨1, [("k", Val.str "v")], [], some ⟨1, [("k", Val.str "v")], []⟩,
      [("profile", Val.str "b")]⟩,
    [⟨"A", "a", 1, [("k", Val.str "v")]⟩, ⟨"B", "b", 2, [("k2", Val.str "v2")]⟩], "a"⟩

/-- Counterexample to C7 as stated: `ProfilesSpawner.construct_child`
re-reads `user_options` and re-applies `select_profile` before the
child-existence guard, so `child_class` (and `child_config`) change even
while a child reference exists. -/
theorem construct_child_mutates_selection_with_live_child :
    mutateCexState.child_spawner.isSome = true ∧
    mutateCexState.child_class = 1 ∧
    (profilesConstructChild idClasses mutateCexState).child_class = 2 :=
  ⟨rfl, rfl, rfl⟩

/-- C7 amended: only the child-instantiation step is guarded by child
existence — `WrapSpawner.construct_child` with an existing child leaves the
state entirely unchanged — while the selection metadata (`child_class`,
`child_config`) can still be rewritten by `ProfilesSpawner.construct_child`,
`select_profile` or `load_state` while a child reference exists. -/
theorem construct_child_core_noop_when_child_exists (B : Nat → BackendBehavior)
    (s : WrapState) (inst : ChildInst) (h : s.child_spawner = some inst) :
    constructChildCore B s = s := by
  unfold constructChildCore
  rw [h]

/-- Witness for the C7 amended theorem: a core state with a live child. -/
theorem construct_child_core_noop_when_child_exists_witness :
    constructChildCore idClasses mutateCexState.toWrapState = mutateCexState.toWrapState :=
  construct_child_core_noop_when_child_exists idClasses mutateCexState.toWrapState
    ⟨1, [("k", Val.str "v")], []⟩ rfl

/-- A `DropDownOptionsSpawner` with the default configuration: partitions
`["standard"]`, `default_days = 0`, `default_hours = 8`,
`default_minutes = 0`, `default_mem = 2`, `default_cpus = 1`. -/
def ddDefaultState : DDState :=
  ⟨⟨LocalProcessSpawnerCls, [], [], none, []⟩, ["standard"], 0, 8, 0, 2, 1⟩

/-- Form data in which every field except `partition` is submitted, used to
show what the partition default actually produces. -/
def ddNoPartitionForm : Dict :=
  [("memory", Val.list [Val.str "8"]), ("cpus", Val.list [Val.str "4"]),
   ("days", Val.list [Val.str "1"]), ("hours", Val.list [Val.str "2"]),
   ("minutes", Val.list [Val.str "30"]), ("options", Val.list [Val.str "--flag"])]

/-- C8 evaluation: `DropDownOptionsSpawner.options_from_form` does fail on
missing keys. On empty form data the integer default for `memory` is
subscripted (`formdata.get("memory", 2)[0]`), raising TypeError; with only
`partition` missing the call succeeds but yields `"t"` — the second
character of `"standard"`, because the default expression is
`[self.partitions[0][1]]` — not the first partition. -/
theorem dd_options_from_form_missing_keys_raise :
    ddOptionsFromForm ddDefaultState []
      = Except.error "TypeError: int object is not subscriptable" ∧
    ddOptionsFromForm ddDefaultState ddNoPartitionForm
      = Except.ok [("partition", Val.str "t"), ("memory", Val.str "8"),
          ("cpus", Val.str "4"), ("days", Val.str "1"), ("hours", Val.str "2"),
          ("minutes", Val.str "30"), ("options", Val.str "--flag")] :=
  ⟨rfl, rfl⟩

/-- A `DropDownOptionsSpawner` holding the submitted options of claim C9:
`days = "1"`, `hours = "2"`, `minutes = "30"`, `cpus = "4"`,
`memory = "8"`, `partition = "standard"`, `options = "--flag"`. -/
def ddC9State : DDState :=
  ⟨⟨LocalProcessSpawnerCls, [], [], none,
      [("partition", Val.str "standard"), ("memory", Val.str "8"),
       ("cpus", Val.str "4"), ("days", Val.str "1"), ("hours", Val.str "2"),
       ("minutes", Val.str "30"), ("options", Val.str "--flag")]⟩,
    ["standard"], 0, 8, 0, 2, 1⟩

/-- C9 evaluation: with the submitted options of the claim, the
construction hook of `DropDownOptionsSpawner` raises NameError — its
first statement resolves the undefined name `SlurmSpawner` — before any
`req_*` field of the child configuration is written, so the claimed
mapping (`req_runtime = "1-2:30:00"`, `req_memory = "8GB"`, one-to-one
`req_queue`/`req_nprocs`/`req_options`) is never produced. -/
theorem dd_construct_child_raises_nameerror :
    ddConstructChild idClasses ddC9State
      = Except.error "NameError: name SlurmSpawner is not defined" :=
  rfl

/-- C10: `ProfilesSpawner.options_from_form` with no `profile` key at all
succeeds, returning the key of the first profile, while a `profile` key
mapping to an empty list raises IndexError from subscripting element 0. -/
theorem profiles_options_from_form_empty_list_fails (s : PState)
    (p : Profile) (rest : List Profile) (h : s.profiles = p :: rest) :
    profilesOptionsFromForm s [] = Except.ok [("profile", Val.str p.key)] ∧
    profilesOptionsFromForm s [("profile", Val.list [])]
      = Except.error "IndexError" := by
  unfold profilesOptionsFromForm
  rw [h]
  exact ⟨rfl, rfl⟩

/-- Witness for C10: the default profile list. -/
theorem profiles_options_from_form_empty_list_fails_witness :
    profilesOptionsFromForm (freshPState [⟨"Local Notebook Server", "local",
        LocalProcessSpawnerCls, [("start_timeout", Val.int 15), ("http_timeout", Val.int 10)]⟩]) []
      = Except.ok [("profile", Val.str "local")] ∧
    profilesOptionsFromForm (freshPState [⟨"Local Notebook Server", "local",
        LocalProcessSpawnerCls, [("start_timeout", Val.int 15), ("http_timeout", Val.int 10)]⟩])
        [("profile", Val.list [])]
      = Except.error "IndexError" :=
  profiles_options_from_form_empty_list_fails
    (freshPState [⟨"Local Notebook Server", "local", LocalProcessSpawnerCls,
        [("start_timeout", Val.int 15), ("http_timeout", Val.int 10)]⟩])
    ⟨"Local Notebook Server", "local", LocalProcessSpawnerCls,
        [("start_timeout", Val.int 15), ("http_timeout", Val.int 10)]⟩ [] rfl

/-- Helper for C5: the duplicate scan reports nothing on a profile list
whose keys are pairwise distinct and disjoint from the keys already seen. -/
theorem dupScan_eq_of_nodup (ps : List Profile) (seen dup : List String)
    (hnd : (ps.map Profile.key).Nodup)
    (hdisj : ∀ k ∈ ps.map Profile.key, k ∉ seen) :
    dupScan ps seen dup = dup := by
  induction ps generalizing seen with
  | nil => rfl
  | cons p rest ih =>
      have hp : p.key ∉ seen := hdisj p.key (by simp)
      have hc : seen.contains p.key = false := by
        simpa using hp
      rw [dupScan, hc]
      simp only [Bool.false_eq_true, if_false]
      rw [List.map_cons] at hnd
      rcases List.nodup_cons.mp hnd with ⟨hhd, htl⟩
      refine ih (seen ++ [p.key]) htl ?_
      intro k hk
      simp only [List.mem_append, List.mem_singleton]
      rintro (hks | rfl)
      · exact hdisj k (by simp [hk]) hks
      · exact hhd hk

/-- The duplicate-key profile list of claim C5. -/
def dupKeyProfiles : List Profile :=
  [⟨"A", "x", 1, []⟩, ⟨"B", "x", 2, []⟩]

/-- C5: a profile list with all-distinct keys passes validation unchanged,
and the duplicate-key list `[("A","x",...), ("B","x",...)]` raises a
validation error whose message contains the duplicated key `"x"`. -/
theorem duplicate_profile_keys_validation :
    (∀ ps : List Profile, (ps.map Profile.key).Nodup →
      validateProfiles ps = Except.ok ps) ∧
    ∃ msg, validateProfiles dupKeyProfiles = Except.error msg ∧
      ∃ pre post, msg = pre ++ "x" ++ post := by
  constructor
  · intro ps h
    have hs := dupScan_eq_of_nodup ps [] [] h (by simp)
    unfold validateProfiles
    rw [hs]
    rfl
  · exact ⟨_, rfl,
      "Invalid wrapspawner profiles, profiles keys are not unique : \x7b", "\x7d", rfl⟩

/-- Frame lemma: `select_profile` never touches the child reference. -/
theorem selectProfile_child_spawner (s : PState) (k : String) :
    (selectProfile s k).child_spawner = s.child_spawner := by
  unfold selectProfile
  cases s.profiles.find? (fun p => p.key == k) <;> rfl

/-- Frame lemma: `select_profile` never touches the cached child state. -/
theorem selectProfile_child_state (s : PState) (k : String) :
    (selectProfile s k).child_state = s.child_state := by
  unfold selectProfile
  cases s.profiles.find? (fun p => p.key == k) <;> rfl

/-- Frame lemma: `select_profile` commutes with setting `child_profile`. -/
theorem selectProfile_profile_irrel (s : PState) (cp k : String) :
    selectProfile { s with child_profile := cp } k
      = { selectProfile s k with child_profile := cp } := by
  unfold selectProfile
  cases s.profiles.find? (fun p => p.key == k) <;> rfl

/-- Characterization of `ProfilesSpawner.construct_child` on a state with
no child: the constructed child carries the class and config that
`select_profile` (applied to the profile key taken from `user_options`)
leaves in place, and its state is the cleared fresh state, with
`child_state` loaded on top when non-empty. -/
theorem profilesConstructChild_spawner_of_none (B : Nat → BackendBehavior)
    (s : PState) (h : s.child_spawner = none) :
    (profilesConstructChild B s).child_spawner =
      some ⟨(selectProfile s (uoProfile s)).child_class,
            (selectProfile s (uoProfile s)).child_config,
            if s.child_state.isEmpty then
              (B (selectProfile s (uoProfile s)).child_class).clearSt
                (B (selectProfile s (uoProfile s)).child_class).initState
            else
              (B (selectProfile s (uoProfile s)).child_class).loadSt
                ((B (selectProfile s (uoProfile s)).child_class).clearSt
                  (B (selectProfile s (uoProfile s)).child_class).initState)
                s.child_state⟩ := by
  unfold profilesConstructChild constructChildCore
  rw [selectProfile_profile_irrel]
  have hsp := selectProfile_child_spawner s (uoProfile s)
  rw [h] at hsp
  have hst := selectProfile_child_state s (uoProfile s)
  dsimp only
  rw [hsp, hst]

/-- Key-lookup lemma: in a profile list with pairwise-distinct keys, the
linear scan on the key of a member finds exactly that member. -/
theorem find?_profile_of_nodup (ps : List Profile) (p : Profile)
    (hmem : p ∈ ps) (hnd : (ps.map Profile.key).Nodup) :
    ps.find? (fun q => q.key == p.key) = some p := by
  induction ps with
  | nil => cases hmem
  | cons q rest ih =>
      rw [List.map_cons] at hnd
      rcases List.nodup_cons.mp hnd with ⟨hhd, htl⟩
      rcases List.mem_cons.mp hmem with rfl | hmem'
      · exact List.find?_cons_of_pos _ (by simp)
      · have hq : (q.key == p.key) = false := by
          simp only [beq_eq_false_iff_ne, ne_eq]
          intro he
          rw [he] at hhd
          exact hhd (List.mem_map_of_mem _ hmem')
        rw [List.find?_cons]
        simp only [hq, cond_false]
        exact ih hmem' htl

/-- Witness for C5: the default profile list passes validation. -/
theorem duplicate_profile_keys_validation_witness :
    validateProfiles [⟨"Local Notebook Server", "local", LocalProcessSpawnerCls,
        [("start_timeout", Val.int 15), ("http_timeout", Val.int 10)]⟩, ⟨"B", "x", 1, []⟩]
      = Except.ok [⟨"Local Notebook Server", "local", LocalProcessSpawnerCls,
        [("start_timeout", Val.int 15), ("http_timeout", Val.int 10)]⟩, ⟨"B", "x", 1, []⟩] :=
  duplicate_profile_keys_validation.1 _ (by decide)

/-- A valid profile list (non-empty, unique keys) containing a profile
whose key is the empty string. -/
def emptyKeyProfiles : List Profile :=
  [⟨"A", "", 2, []⟩, ⟨"B", "b", 3, [("c", Val.str "1")]⟩]

/-- Counterexample to C1 as stated: over `emptyKeyProfiles` (valid:
non-empty, unique keys), selecting the key `"b"` (whose profile has class
3) and then constructing on a fresh spawner yields a child of class 2,
because `ProfilesSpawner.construct_child` re-reads the profile key from
the (empty) `user_options`, getting `""`, and `select_profile ""` matches
the first profile. -/
theorem select_then_construct_counterexample :
    ((profilesConstructChild idClasses
        (selectProfile (freshPState emptyKeyProfiles) "b")).child_spawner.map ChildInst.cls
      = some 2) ∧
    (emptyKeyProfiles.find? (fun p => p.key == "b")).map Profile.cls = some 3 :=
  ⟨rfl, rfl⟩

/-- C1 amended: for every valid non-empty profile list with unique keys
and every key in it, `select_profile(key)` followed by `construct_child()`
on a fresh `ProfilesSpawner` (no child, empty `user_options`) produces a
child whose class is the profile class and whose constructor configuration
is exactly the profile config — provided the empty string is not a profile
key, or the selected key is itself the empty string (otherwise
`construct_child` re-selects the profile keyed `""`, see the
counterexample). -/
theorem select_then_construct_yields_profile (B : Nat → BackendBehavior)
    (profiles : List Profile) (p : Profile)
    (hmem : p ∈ profiles) (hnd : (profiles.map Profile.key).Nodup)
    (hkey : (∀ q ∈ profiles, q.key ≠ "") ∨ p.key = "") :
    ∃ inst, (profilesConstructChild B
        (selectProfile (freshPState profiles) p.key)).child_spawner = some inst ∧
      inst.cls = p.cls ∧ inst.cfg = p.config := by
  have hfind := find?_profile_of_nodup profiles p hmem hnd
  have h1 : selectProfile (freshPState profiles) p.key
      = ⟨⟨p.cls, p.config, [], none, []⟩, profiles, ""⟩ := by
    unfold selectProfile freshPState
    rw [hfind]
  rw [h1]
  have hA := profilesConstructChild_spawner_of_none B
    ⟨⟨p.cls, p.config, [], none, []⟩, profiles, ""⟩ rfl
  have hu : uoProfile ⟨⟨p.cls, p.config, [], none, []⟩, profiles, ""⟩ = "" := rfl
  rw [hu] at hA
  have hsel : selectProfile ⟨⟨p.cls, p.config, [], none, []⟩, profiles, ""⟩ ""
      = ⟨⟨p.cls, p.config, [], none, []⟩, profiles, ""⟩ := by
    rcases hkey with hno | hpk
    · have hnone : profiles.find? (fun q => q.key == "") = none := by
        rw [List.find?_eq_none]
        intro q hq
        simp [hno q hq]
      unfold selectProfile
      rw [hnone]
    · unfold selectProfile
      rw [← hpk, hfind]
  rw [hsel] at hA
  exact ⟨_, hA, rfl, rfl⟩

/-- Witness for the C1 amended theorem: the default profile list and its
single key `"local"`. -/
theorem select_then_construct_yields_profile_witness :
    ∃ inst, (profilesConstructChild idClasses
        (selectProfile (freshPState [⟨"Local Notebook Server", "local", LocalProcessSpawnerCls,
          [("start_timeout", Val.int 15), ("http_timeout", Val.int 10)]⟩])
          "local")).child_spawner = some inst ∧
      inst.cls = LocalProcessSpawnerCls ∧
      inst.cfg = [("start_timeout", Val.int 15), ("http_timeout", Val.int 10)] :=
  select_then_construct_yields_profile idClasses _
    ⟨"Local Notebook Server", "local", LocalProcessSpawnerCls,
      [("start_timeout", Val.int 15), ("http_timeout", Val.int 10)]⟩
    (List.mem_singleton.mpr rfl) (by decide) (Or.inl (by decide))

/-- C2: on a `ProfilesSpawner` with a constructed child, capturing
`get_state()`, then `clear_state()`, then `load_state(captured)`
reconstructs a child whose persisted state (`get_state` of the child)
equals the state of the original child before clearing, provided the
backend class of the original child satisfies `StateRoundTrips` and the
reload re-derives the same backend class (hypothesis `hcls`; this holds in
particular when the persisted `profile` key selects the profile the child
was built from). -/
theorem state_round_trip (B : Nat → BackendBehavior) (s : PState) (inst : ChildInst)
    (h1 : s.child_spawner = some inst)
    (hcls : ((roundTripSeq B s).2.child_spawner).map ChildInst.cls = some inst.cls)
    (hrt : StateRoundTrips (B inst.cls)) :
    ∃ inst2, (roundTripSeq B s).2.child_spawner = some inst2 ∧
      (B inst2.cls).getSt inst2.st = (B inst.cls).getSt inst.st := by
  obtain ⟨⟨cls0, conf0, cst0, sp0, uo0⟩, profs, prof⟩ := s
  simp only at h1
  subst h1
  rcases hrt with ⟨hrt1, hrt2⟩
  have hseq : (roundTripSeq B ⟨⟨cls0, conf0, cst0, some inst, uo0⟩, profs, prof⟩).2
      = profilesConstructChild B
          { selectProfile ⟨⟨cls0, [], [], none, uo0⟩, profs, prof⟩ prof with
            child_config := dictUpdate
              (selectProfile ⟨⟨cls0, [], [], none, uo0⟩, profs, prof⟩ prof).child_config conf0,
            child_state := (B inst.cls).getSt inst.st } := rfl
  have h5 : ({ selectProfile ⟨⟨cls0, [], [], none, uo0⟩, profs, prof⟩ prof with
        child_config := dictUpdate
          (selectProfile ⟨⟨cls0, [], [], none, uo0⟩, profs, prof⟩ prof).child_config conf0,
        child_state := (B inst.cls).getSt inst.st } : PState).child_spawner = none := by
    show (selectProfile ⟨⟨cls0, [], [], none, uo0⟩, profs, prof⟩ prof).child_spawner = none
    rw [selectProfile_child_spawner]
  have hA := profilesConstructChild_spawner_of_none B _ h5
  rw [hseq] at hcls ⊢
  rw [hA] at hcls ⊢
  simp only [Option.map_some', Option.some.injEq] at hcls
  refine ⟨_, rfl, ?_⟩
  dsimp only
  rw [hcls]
  show (B inst.cls).getSt
      (if ((B inst.cls).getSt inst.st).isEmpty then
        (B inst.cls).clearSt (B inst.cls).initState
      else
        (B inst.cls).loadSt ((B inst.cls).clearSt (B inst.cls).initState)
          ((B inst.cls).getSt inst.st))
    = (B inst.cls).getSt inst.st
  rcases eq_or_ne ((B inst.cls).getSt inst.st) [] with hnil | hne
  · rw [hnil]
    simp only [List.isEmpty_nil, if_true]
    exact hrt2
  · have hf : ¬((B inst.cls).getSt inst.st).isEmpty = true := fun hh =>
      hne (List.isEmpty_iff.mp hh)
    rw [if_neg hf]
    exact hrt1 inst.st

/-- A `ProfilesSpawner` with a constructed child (built from the profile
keyed `local`) whose child carries non-trivial state, for instantiating
the round-trip theorem. -/
def rtState : PState :=
  ⟨⟨LocalProcessSpawnerCls, [("x", Val.str "1")], [],
      some ⟨LocalProcessSpawnerCls, [("x", Val.str "1")], [("a", Val.str "b")]⟩, []⟩,
    [⟨"Local", "local", LocalProcessSpawnerCls, [("x", Val.str "1")]⟩], "local"⟩

/-- Witness for C2: the round trip on `rtState` with the verbatim-state
backend reproduces the child state `[("a", "b")]`. -/
theorem state_round_trip_witness :
    ∃ inst2, (roundTripSeq idClasses rtState).2.child_spawner = some inst2 ∧
      (idClasses inst2.cls).getSt inst2.st
        = (idClasses (⟨LocalProcessSpawnerCls, [("x", Val.str "1")],
              [("a", Val.str "b")]⟩ : ChildInst).cls).getSt
            (⟨LocalProcessSpawnerCls, [("x", Val.str "1")],
              [("a", Val.str "b")]⟩ : ChildInst).st :=
  state_round_trip idClasses rtState
    ⟨LocalProcessSpawnerCls, [("x", Val.str "1")], [("a", Val.str "b")]⟩ rfl rfl
    ⟨fun _ => rfl, rfl⟩

end Wrapspawner
